import Mathlib

/-!
Verification development for the client script of the portfolio website
(src/SCRIPT/script.js).  The script is DOM-event glue; its two stateful
cores are the page-navigation controller and the contact-form validator.
Both are modelled here as pure state transformers over explicit records
that mirror the DOM state the script reads and writes: the `active` class
on page sections and nav links, the location fragment, the history length,
the mobile-menu flags, the per-field `error` class and error-message text,
the form display style and the success-banner `hidden` class.  Purely
visual effects (smooth scrolling, the skill-bar animation, fade-ins) carry
no modelled state and are omitted.
-/

namespace Portfolio

/-- JavaScript whitespace: the character set matched by the regex class
`\s` and stripped by `String.prototype.trim` (WhiteSpace plus
LineTerminator per ECMA-262). -/
def jsWhitespace : List Char :=
  [' ', '\t', '\n', '\r', '\u000B', '\u000C',
   '\u00A0', '\u1680', '\u2000', '\u2001', '\u2002', '\u2003', '\u2004',
   '\u2005', '\u2006', '\u2007', '\u2008', '\u2009', '\u200A',
   '\u2028', '\u2029', '\u202F', '\u205F', '\u3000', '\uFEFF']

/-- Whether a character is JavaScript whitespace. -/
def isJsWhitespace (c : Char) : Bool := jsWhitespace.contains c

/-- `value.trim()` on a string represented as a character list: strip
leading and trailing JavaScript whitespace. -/
def jsTrim (cs : List Char) : List Char :=
  ((cs.dropWhile isJsWhitespace).reverse.dropWhile isJsWhitespace).reverse

/-- A `.page` section element: its `id` attribute and whether it carries
the `active` class. -/
structure Page where
  id : String
  active : Bool
deriving DecidableEq

/-- A `.nav-link` element: its `data-page` attribute and whether it
carries the `active` class. -/
structure NavLink where
  dataPage : String
  active : Bool
deriving DecidableEq

/-- The navigation-relevant browser state captured by the script: the
`.page` node list, the `.nav-link` node list, the location fragment
(without the leading `#`), the session history length, the `active` flags
of the mobile toggle and menu, and the presence flags of those two
elements (the script null-guards them). -/
structure NavState where
  pages : List Page
  navLinks : List NavLink
  hash : String
  historyLength : Nat
  toggleActive : Bool
  menuActive : Bool
  hasMobileToggle : Bool
  hasNavMenu : Bool
deriving DecidableEq

/-- `classList.remove('active')` on a page. -/
def deactivatePage (p : Page) : Page := { p with active := false }

/-- `classList.remove('active')` on a nav link. -/
def deactivateLink (l : NavLink) : NavLink := { l with active := false }

/-- `document.getElementById(pageId)` over the page sections followed by
`classList.add('active')`: activates the first page whose id matches and
is the identity when none does (the null guard in the source). -/
def activatePageById : List Page → String → List Page
  | [], _ => []
  | p :: ps, i =>
      if p.id = i then { p with active := true } :: ps
      else p :: activatePageById ps i

/-- `document.querySelector('[data-page=pageId]')` over the nav links
followed by `classList.add('active')`: activates the first link whose
`data-page` matches and is the identity when none does. -/
def activateLinkByData : List NavLink → String → List NavLink
  | [], _ => []
  | l :: ls, i =>
      if l.dataPage = i then { l with active := true } :: ls
      else l :: activateLinkByData ls i

/-- `navigateToPage(pageId)` (script.js lines 29-66): clear every `active`
class, re-activate the matching page and nav link when found, close the
mobile menu when both its elements exist, and push `#pageId` onto the
history only when it differs from the current fragment.  The smooth
scroll-to-top and the delayed skill-bar animation are visual effects with
no bearing on the modelled state. -/
def navigateToPage (pageId : String) (st : NavState) : NavState :=
  let pages2 := activatePageById (st.pages.map deactivatePage) pageId
  let links2 := activateLinkByData (st.navLinks.map deactivateLink) pageId
  let closeMenu := st.hasMobileToggle && st.hasNavMenu
  { st with
    pages := pages2
    navLinks := links2
    toggleActive := if closeMenu then false else st.toggleActive
    menuActive := if closeMenu then false else st.menuActive
    hash := if st.hash ≠ pageId then pageId else st.hash
    historyLength :=
      if st.hash ≠ pageId then st.historyLength + 1 else st.historyLength }

/-- The `popstate` handler (script.js lines 382-406): re-derive the target
from the current fragment, defaulting to "home" when it is empty, and
re-apply the `active` classes without touching the history, the fragment
or the mobile menu.  No fallback exists for a non-empty unmatched
fragment. -/
def popstateHandler (st : NavState) : NavState :=
  let hash := if st.hash = "" then "home" else st.hash
  { st with
    pages := activatePageById (st.pages.map deactivatePage) hash
    navLinks := activateLinkByData (st.navLinks.map deactivateLink) hash }

/-- The navigation part of the `DOMContentLoaded` handler (script.js lines
433-454): like `popstate`, but when the fragment matches no page or no nav
link the handler explicitly falls back to activating "home" and its link
(the source calls `getElementById('home')` unguarded there; the model
activates the first "home" page when one exists). -/
def domContentLoadedNav (st : NavState) : NavState :=
  let hash := if st.hash = "" then "home" else st.hash
  let pages1 := st.pages.map deactivatePage
  let links1 := st.navLinks.map deactivateLink
  { st with
    pages :=
      if hash ∈ pages1.map Page.id then activatePageById pages1 hash
      else activatePageById pages1 "home"
    navLinks :=
      if hash ∈ links1.map NavLink.dataPage then activateLinkByData links1 hash
      else activateLinkByData links1 "home" }

/-- Ids of the pages currently carrying the `active` class. -/
def activePageIds (ps : List Page) : List String :=
  (ps.filter Page.active).map Page.id

/-- `data-page` values of the nav links currently carrying the `active`
class. -/
def activeLinkIds (ls : List NavLink) : List String :=
  (ls.filter NavLink.active).map NavLink.dataPage

/-- One contact-form field together with the DOM nodes `validateField`
touches: the field name and raw value, the presence of the enclosing
`.form-group` and of the `<name>Error` message element, the `error` class
on the group, and the message element text. -/
structure FieldState where
  name : String
  value : List Char
  hasFormGroup : Bool
  hasErrorElement : Bool
  groupError : Bool
  errorText : String
deriving DecidableEq

/-- A validation rule: the regex test (as a predicate on the trimmed
character list) and the human-readable message. -/
structure ValidationRule where
  test : List Char → Bool
  message : String

/-- A character admissible in the regex class `[^\s@]`. -/
def emailPlain (c : Char) : Bool := !isJsWhitespace c && c != '@'

/-- `/^[a-zA-Z\s]{2,50}$/.test`: between 2 and 50 characters, each an
ASCII letter or `\s` whitespace. -/
def namePatternTest (cs : List Char) : Bool :=
  decide (2 ≤ cs.length) && decide (cs.length ≤ 50) &&
    cs.all (fun c => c.isAlpha || isJsWhitespace c)

/-- The part `[^\s@]+\.[^\s@]+` of the email regex, anchored on both
sides, by its backtracking semantics: some split of the input as
`p ++ "." ++ q` with `p` and `q` non-empty and drawn from `[^\s@]`. -/
def emailDomainTest (cs : List Char) : Bool :=
  (List.range cs.length).any fun i =>
    decide (0 < i) && (cs.take i).all emailPlain &&
      (cs.getD i ' ' == '.') &&
      decide (i + 1 < cs.length) && (cs.drop (i + 1)).all emailPlain

/-- `/^[^\s@]+@[^\s@]+\.[^\s@]+$/.test` by its backtracking semantics:
some split of the input at an `@` with a non-empty `[^\s@]+` part before
it and the anchored domain pattern matching the remainder. -/
def emailPatternTest (cs : List Char) : Bool :=
  (List.range cs.length).any fun i =>
    decide (0 < i) && (cs.take i).all emailPlain &&
      (cs.getD i ' ' == '@') &&
      emailDomainTest (cs.drop (i + 1))

/-- A character matched by `.` in a JavaScript regex without the `s`
flag: anything but a line terminator. -/
def dotChar (c : Char) : Bool :=
  c != '\n' && c != '\r' && c != '\u2028' && c != '\u2029'

/-- `/^.{10,500}$/.test`: 10 to 500 characters, none a line terminator. -/
def messagePatternTest (cs : List Char) : Bool :=
  decide (10 ≤ cs.length) && decide (cs.length ≤ 500) && cs.all dotChar

/-- The `name` entry of `validationRules` (script.js lines 148-151). -/
def nameRule : ValidationRule :=
  ⟨namePatternTest, "Name must be 2-50 characters and contain only letters"⟩

/-- The `email` entry of `validationRules` (script.js lines 152-155). -/
def emailRule : ValidationRule :=
  ⟨emailPatternTest, "Please enter a valid email address"⟩

/-- The `message` entry of `validationRules` (script.js lines 156-159). -/
def messageRule : ValidationRule :=
  ⟨messagePatternTest, "Message must be between 10 and 500 characters"⟩

/-- The `validationRules` table lookup (script.js lines 147-160): field
names outside the table have no rule. -/
def validationRules (fieldName : String) : Option ValidationRule :=
  if fieldName = "name" then some nameRule
  else if fieldName = "email" then some emailRule
  else if fieldName = "message" then some messageRule
  else none

/-- `validateField(field)` (script.js lines 167-194): bail out invalid
without mutating when the form group or the error element is missing;
report the fixed required message on an empty trimmed value; otherwise
test the rule pattern when a rule exists.  Returns the verdict and the
updated field state.  The source computes `field.value.trim()` once up
front; the call is pure, so it is written inline here. -/
def validateField (f : FieldState) : Bool × FieldState :=
  if !f.hasFormGroup || !f.hasErrorElement then (false, f)
  else if (jsTrim f.value).isEmpty then
    (false, { f with groupError := true, errorText := "This field is required" })
  else
    match validationRules f.name with
    | some rule =>
        if !rule.test (jsTrim f.value) then
          (false, { f with groupError := true, errorText := rule.message })
        else (true, { f with groupError := false, errorText := "" })
    | none => (true, { f with groupError := false, errorText := "" })

/-- `validateForm()` (script.js lines 200-211): validate every field in
document order and conjoin the verdicts; the `forEach` accumulator never
skips a field. -/
def validateForm : List FieldState → Bool × List FieldState
  | [] => (true, [])
  | f :: fs =>
      ((validateField f).1 && (validateForm fs).1,
       (validateField f).2 :: (validateForm fs).2)

/-- The contact form with its success banner: the field list, the value of
the form `display` style, the presence of the banner element (the script
null-guards it) and the `hidden` class on the banner. -/
structure FormState where
  fields : List FieldState
  formDisplay : String
  hasSuccess : Bool
  successHidden : Bool
deriving DecidableEq

/-- The whole modelled application state: navigation, form, and which
field currently holds input focus. -/
structure AppState where
  nav : NavState
  form : FormState
  focusedField : Option String
deriving DecidableEq

/-- `contactForm.querySelector('.form-group.error')` together with the
input inside it: the first field whose existing group carries the `error`
class (each modelled group contains exactly its field). -/
def firstErrorField (fs : List FieldState) : Option FieldState :=
  fs.find? fun f => f.hasFormGroup && f.groupError

/-- The `submit` handler (script.js lines 233-289): validate every field;
on success hide the form, reveal the banner when present and schedule the
3000 ms reset; on failure focus the first invalid group when one exists.
The returned option is the scheduled reset delay.  The source calls
`validateForm()` once; the call is pure, so it is written inline here. -/
def handleSubmit (app : AppState) : AppState × Option Nat :=
  if (validateForm app.form.fields).1 then
    ({ app with form :=
        { app.form with
          fields := (validateForm app.form.fields).2
          formDisplay := "none"
          successHidden :=
            if app.form.hasSuccess then false else app.form.successHidden } },
     some 3000)
  else
    ({ app with
        form := { app.form with fields := (validateForm app.form.fields).2 }
        focusedField :=
          match firstErrorField (validateForm app.form.fields).2 with
          | some f => some f.name
          | none => app.focusedField }, none)

/-- The body of the 3000 ms reset timer (script.js lines 256-272):
`contactForm.reset()` clears every field value, the form display is
restored to flex, the banner is re-hidden when present, and every `error`
class and error message is cleared. -/
def resetTimer (app : AppState) : AppState :=
  { app with form :=
      { app.form with
        fields := app.form.fields.map fun f =>
          { f with value := [], groupError := false, errorText := "" }
        formDisplay := "flex"
        successHidden :=
          if app.form.hasSuccess then true else app.form.successHidden } }

/-- The name rule as the specification words it: 2 to 50 characters, each
a letter (a-z, A-Z) or whitespace. -/
def specNameOk (cs : List Char) : Prop :=
  2 ≤ cs.length ∧ cs.length ≤ 50 ∧
    ∀ c ∈ cs, c.isAlpha = true ∨ isJsWhitespace c = true

/-- The email rule stated structurally: a decomposition
`a ++ "@" ++ p ++ "." ++ q` with the three parts non-empty and free of
whitespace and `@`. -/
def specEmailOk (cs : List Char) : Prop :=
  ∃ a p q : List Char,
    cs = a ++ '@' :: (p ++ '.' :: q) ∧ a ≠ [] ∧ p ≠ [] ∧ q ≠ [] ∧
      (∀ c ∈ a, emailPlain c = true) ∧ (∀ c ∈ p, emailPlain c = true) ∧
      (∀ c ∈ q, emailPlain c = true)

/-- The message rule as amended: 10 to 500 characters, none a line
terminator. -/
def specMessageOk (cs : List Char) : Prop :=
  10 ≤ cs.length ∧ cs.length ≤ 500 ∧ ∀ c ∈ cs, dotChar c = true

/-- The message rule exactly as the claim words it: 10 to 500 characters
of any character. -/
def claimedMessageOk (cs : List Char) : Prop :=
  10 ≤ cs.length ∧ cs.length ≤ 500

/-- The email rule exactly as the claim words it: a non-whitespace local
part, `@`, and a non-whitespace domain containing a dot. -/
def claimedEmailOk (cs : List Char) : Prop :=
  ∃ a d : List Char,
    cs = a ++ '@' :: d ∧ a ≠ [] ∧ d ≠ [] ∧
      (∀ c ∈ a, isJsWhitespace c = false) ∧
      (∀ c ∈ d, isJsWhitespace c = false) ∧ '.' ∈ d

/-- Sample page list mirroring the four sections of the document. -/
def samplePages : List Page :=
  [⟨"home", true⟩, ⟨"about", false⟩, ⟨"projects", false⟩, ⟨"contact", false⟩]

/-- Sample nav-link list mirroring the four header links. -/
def sampleLinks : List NavLink :=
  [⟨"home", true⟩, ⟨"about", false⟩, ⟨"projects", false⟩, ⟨"contact", false⟩]

/-- A sample navigation state sitting on the home page. -/
def sampleNav : NavState :=
  { pages := samplePages
    navLinks := sampleLinks
    hash := "home"
    historyLength := 1
    toggleActive := false
    menuActive := false
    hasMobileToggle := true
    hasNavMenu := true }

/-- The sample navigation state with an empty fragment. -/
def emptyHashNav : NavState := { sampleNav with hash := "" }

/-- The sample navigation state with a fragment matching no page. -/
def bogusHashNav : NavState := { sampleNav with hash := "bogus" }

/-- A name field holding a value the name rule accepts. -/
def sampleNameField : FieldState :=
  ⟨"name", "John Doe".toList, true, true, false, ""⟩

/-- An email field holding a value the email rule accepts. -/
def sampleEmailField : FieldState :=
  ⟨"email", "john@example.com".toList, true, true, false, ""⟩

/-- A message field holding a value the message rule accepts. -/
def sampleMessageField : FieldState :=
  ⟨"message", "Hello there, message!".toList, true, true, false, ""⟩

/-- A message field holding a value shorter than ten characters. -/
def shortMessageField : FieldState :=
  ⟨"message", "short".toList, true, true, false, ""⟩

/-- An email field whose trimmed value is empty. -/
def blankField : FieldState :=
  ⟨"email", "   ".toList, true, true, false, "old"⟩

/-- A name field with a passing value but no enclosing form group. -/
def orphanField : FieldState :=
  ⟨"name", "John Doe".toList, false, true, false, ""⟩

/-- A message field of eleven characters containing an interior newline. -/
def newlineMessageField : FieldState :=
  ⟨"message", "ab\ncdefghij".toList, true, true, false, ""⟩

/-- An email field whose value ends right after the dot. -/
def dotEndEmailField : FieldState :=
  ⟨"email", "a@b.".toList, true, true, false, ""⟩

/-- A form whose three fields all pass validation. -/
def sampleForm : FormState :=
  ⟨[sampleNameField, sampleEmailField, sampleMessageField], "flex", true, true⟩

/-- The application sitting on the valid sample form. -/
def sampleApp : AppState := ⟨sampleNav, sampleForm, none⟩

/-- A form whose message field fails validation. -/
def invalidForm : FormState :=
  ⟨[sampleNameField, sampleEmailField, shortMessageField], "flex", true, true⟩

/-- The application sitting on the invalid sample form. -/
def invalidApp : AppState := ⟨sampleNav, invalidForm, none⟩

/-- Every page produced by the deactivation pass is inactive. -/
theorem deactivate_pages_inactive (ps : List Page) :
    ∀ p ∈ ps.map deactivatePage, p.active = false := by
  intro p hp
  obtain ⟨q, _, rfl⟩ := List.mem_map.mp hp
  rfl

/-- The deactivation pass keeps the page ids. -/
theorem deactivate_pages_ids (ps : List Page) :
    (ps.map deactivatePage).map Page.id = ps.map Page.id := by
  induction ps with
  | nil => rfl
  | cons p ps ih => simp [deactivatePage, ih]

/-- Every link produced by the deactivation pass is inactive. -/
theorem deactivate_links_inactive (ls : List NavLink) :
    ∀ l ∈ ls.map deactivateLink, l.active = false := by
  intro l hl
  obtain ⟨m, _, rfl⟩ := List.mem_map.mp hl
  rfl

/-- The deactivation pass keeps the link targets. -/
theorem deactivate_links_ids (ls : List NavLink) :
    (ls.map deactivateLink).map NavLink.dataPage = ls.map NavLink.dataPage := by
  induction ls with
  | nil => rfl
  | cons l ls ih => simp [deactivateLink, ih]

/-- A list of all-inactive pages has no active ids. -/
theorem activePageIds_nil (ps : List Page) (h : ∀ p ∈ ps, p.active = false) :
    activePageIds ps = [] := by
  induction ps with
  | nil => rfl
  | cons p ps ih =>
    have hp : p.active = false := h p (List.mem_cons_self p ps)
    have ht := ih fun x hx => h x (List.mem_cons_of_mem p hx)
    simp only [activePageIds, List.filter_cons, hp] at ht ⊢
    simpa using ht

/-- A list of all-inactive links has no active targets. -/
theorem activeLinkIds_nil (ls : List NavLink) (h : ∀ l ∈ ls, l.active = false) :
    activeLinkIds ls = [] := by
  induction ls with
  | nil => rfl
  | cons l ls ih =>
    have hl : l.active = false := h l (List.mem_cons_self l ls)
    have ht := ih fun x hx => h x (List.mem_cons_of_mem l hx)
    simp only [activeLinkIds, List.filter_cons, hl] at ht ⊢
    simpa using ht

/-- Activating a present id in an all-inactive page list leaves exactly
that id active. -/
theorem activatePageById_spec (ps : List Page) (i : String)
    (hinact : ∀ p ∈ ps, p.active = false) (hmem : i ∈ ps.map Page.id) :
    activePageIds (activatePageById ps i) = [i] := by
  induction ps with
  | nil => simp at hmem
  | cons p ps ih =>
    simp only [activatePageById]
    by_cases hid : p.id = i
    · rw [if_pos hid]
      have ht := activePageIds_nil ps fun x hx => hinact x (List.mem_cons_of_mem p hx)
      simp only [activePageIds, List.filter_cons] at ht ⊢
      simpa [ht] using hid
    · rw [if_neg hid]
      have hp : p.active = false := hinact p (List.mem_cons_self p ps)
      have hmem2 : i ∈ ps.map Page.id := by
        rw [List.map_cons] at hmem
        rcases List.mem_cons.mp hmem with h | h
        · exact absurd h.symm hid
        · exact h
      have ht := ih (fun x hx => hinact x (List.mem_cons_of_mem p hx)) hmem2
      simp only [activePageIds, List.filter_cons, hp] at ht ⊢
      simpa using ht

/-- Activating a present target in an all-inactive link list leaves
exactly that target active. -/
theorem activateLinkByData_spec (ls : List NavLink) (i : String)
    (hinact : ∀ l ∈ ls, l.active = false) (hmem : i ∈ ls.map NavLink.dataPage) :
    activeLinkIds (activateLinkByData ls i) = [i] := by
  induction ls with
  | nil => simp at hmem
  | cons l ls ih =>
    simp only [activateLinkByData]
    by_cases hid : l.dataPage = i
    · rw [if_pos hid]
      have ht := activeLinkIds_nil ls fun x hx => hinact x (List.mem_cons_of_mem l hx)
      simp only [activeLinkIds, List.filter_cons] at ht ⊢
      simpa [ht] using hid
    · rw [if_neg hid]
      have hl : l.active = false := hinact l (List.mem_cons_self l ls)
      have hmem2 : i ∈ ls.map NavLink.dataPage := by
        rw [List.map_cons] at hmem
        rcases List.mem_cons.mp hmem with h | h
        · exact absurd h.symm hid
        · exact h
      have ht := ih (fun x hx => hinact x (List.mem_cons_of_mem l hx)) hmem2
      simp only [activeLinkIds, List.filter_cons, hl] at ht ⊢
      simpa using ht

/-- Activating an absent id changes nothing. -/
theorem activatePageById_not_found (ps : List Page) (i : String)
    (h : i ∉ ps.map Page.id) : activatePageById ps i = ps := by
  induction ps with
  | nil => rfl
  | cons p ps ih =>
    simp only [List.map_cons, List.mem_cons, not_or] at h
    simp only [activatePageById]
    rw [if_neg fun e => h.1 e.symm, ih h.2]

/-- Activating an absent target changes nothing. -/
theorem activateLinkByData_not_found (ls : List NavLink) (i : String)
    (h : i ∉ ls.map NavLink.dataPage) : activateLinkByData ls i = ls := by
  induction ls with
  | nil => rfl
  | cons l ls ih =>
    simp only [List.map_cons, List.mem_cons, not_or] at h
    simp only [activateLinkByData]
    rw [if_neg fun e => h.1 e.symm, ih h.2]

/-- Deactivate-then-activate with a present id leaves exactly it active. -/
theorem activate_after_deactivate_pages (ps : List Page) (i : String)
    (h : i ∈ ps.map Page.id) :
    activePageIds (activatePageById (ps.map deactivatePage) i) = [i] :=
  activatePageById_spec _ i (deactivate_pages_inactive ps)
    (by rw [deactivate_pages_ids]; exact h)

/-- Deactivate-then-activate with an absent id leaves nothing active. -/
theorem activate_after_deactivate_pages_none (ps : List Page) (i : String)
    (h : i ∉ ps.map Page.id) :
    activePageIds (activatePageById (ps.map deactivatePage) i) = [] := by
  rw [activatePageById_not_found _ _ (by rw [deactivate_pages_ids]; exact h)]
  exact activePageIds_nil _ (deactivate_pages_inactive ps)

/-- Deactivate-then-activate with a present target leaves exactly it
active. -/
theorem activate_after_deactivate_links (ls : List NavLink) (i : String)
    (h : i ∈ ls.map NavLink.dataPage) :
    activeLinkIds (activateLinkByData (ls.map deactivateLink) i) = [i] :=
  activateLinkByData_spec _ i (deactivate_links_inactive ls)
    (by rw [deactivate_links_ids]; exact h)

/-- Deactivate-then-activate with an absent target leaves nothing
active. -/
theorem activate_after_deactivate_links_none (ls : List NavLink) (i : String)
    (h : i ∉ ls.map NavLink.dataPage) :
    activeLinkIds (activateLinkByData (ls.map deactivateLink) i) = [] := by
  rw [activateLinkByData_not_found _ _ (by rw [deactivate_links_ids]; exact h)]
  exact activeLinkIds_nil _ (deactivate_links_inactive ls)

/-- Reading at the length of the left part of an append hits the
following element. -/
theorem getD_append_cons (a r : List Char) (c d : Char) :
    (a ++ c :: r).getD a.length d = c := by
  induction a with
  | nil => rfl
  | cons x xs ih => simpa using ih

/-- Dropping one past the left part of an append leaves the right part. -/
theorem drop_append_cons (a r : List Char) (c : Char) :
    (a ++ c :: r).drop (a.length + 1) = r := by
  induction a with
  | nil => rfl
  | cons x xs ih => simp

/-- Splitting a list at an in-range index around its element there. -/
theorem getD_cons_decomp (cs : List Char) (i : Nat) (d : Char)
    (h : i < cs.length) :
    cs = cs.take i ++ cs.getD i d :: cs.drop (i + 1) := by
  have hg : cs.getD i d = cs[i] := by
    simp [List.getD_eq_getElem?_getD, List.getElem?_eq_getElem h]
  rw [hg]
  conv_lhs => rw [← List.take_append_drop i cs]
  rw [List.drop_eq_getElem_cons h]

/-- A positive-length prefix of a longer list is non-empty. -/
theorem take_ne_nil (cs : List Char) {i : Nat} (h0 : 0 < i)
    (h : i < cs.length) : cs.take i ≠ [] := by
  intro hnil
  rcases List.take_eq_nil_iff.mp hnil with h1 | h1
  · omega
  · rw [h1] at h
    simp at h

/-- Dropping strictly fewer elements than the length leaves something. -/
theorem drop_ne_nil (cs : List Char) {i : Nat} (h : i < cs.length) :
    cs.drop i ≠ [] := by
  intro hnil
  have := List.drop_eq_nil_iff.mp hnil
  omega

/-- The anchored `[^\s@]+\.[^\s@]+` test holds exactly on inputs that
split at a dot into two non-empty `[^\s@]` runs. -/
theorem emailDomainTest_iff (cs : List Char) :
    emailDomainTest cs = true ↔
      ∃ p q : List Char, cs = p ++ '.' :: q ∧ p ≠ [] ∧ q ≠ [] ∧
        (∀ c ∈ p, emailPlain c = true) ∧ (∀ c ∈ q, emailPlain c = true) := by
  rw [emailDomainTest, List.any_eq_true]
  constructor
  · rintro ⟨i, hir, hcond⟩
    rw [List.mem_range] at hir
    simp only [Bool.and_eq_true, decide_eq_true_eq, beq_iff_eq] at hcond
    obtain ⟨⟨⟨⟨h0, hall1⟩, hdot⟩, hlt⟩, hall2⟩ := hcond
    refine ⟨cs.take i, cs.drop (i + 1), ?_, take_ne_nil cs h0 hir,
      drop_ne_nil cs hlt, ?_, ?_⟩
    · have hdec := getD_cons_decomp cs i ' ' hir
      rw [hdot] at hdec
      exact hdec
    · exact fun c hc => List.all_eq_true.mp hall1 c hc
    · exact fun c hc => List.all_eq_true.mp hall2 c hc
  · rintro ⟨p, q, rfl, hp, hq, hallp, hallq⟩
    refine ⟨p.length, ?_, ?_⟩
    · rw [List.mem_range]
      simp only [List.length_append, List.length_cons]
      omega
    · simp only [Bool.and_eq_true, decide_eq_true_eq, beq_iff_eq]
      have hq1 : 0 < q.length := List.length_pos.mpr hq
      refine ⟨⟨⟨⟨List.length_pos.mpr hp, ?_⟩, ?_⟩, ?_⟩, ?_⟩
      · rw [List.take_left]
        exact List.all_eq_true.mpr hallp
      · exact getD_append_cons p q '.' ' '
      · simp only [List.length_append, List.length_cons]
        omega
      · rw [drop_append_cons]
        exact List.all_eq_true.mpr hallq

/-- The full email regex test holds exactly on the structural
decomposition stated by `specEmailOk`. -/
theorem emailPatternTest_iff (cs : List Char) :
    emailPatternTest cs = true ↔ specEmailOk cs := by
  rw [emailPatternTest, List.any_eq_true]
  constructor
  · rintro ⟨i, hir, hcond⟩
    rw [List.mem_range] at hir
    simp only [Bool.and_eq_true, decide_eq_true_eq, beq_iff_eq] at hcond
    obtain ⟨⟨⟨h0, hall1⟩, hat⟩, hdom⟩ := hcond
    obtain ⟨p, q, hrest, hp, hq, hallp, hallq⟩ :=
      (emailDomainTest_iff _).mp hdom
    refine ⟨cs.take i, p, q, ?_, take_ne_nil cs h0 hir, hp, hq,
      fun c hc => List.all_eq_true.mp hall1 c hc, hallp, hallq⟩
    have hdec := getD_cons_decomp cs i ' ' hir
    rw [hat] at hdec
    conv_lhs => rw [hdec]
    rw [hrest]
  · rintro ⟨a, p, q, rfl, ha, hp, hq, halla, hallp, hallq⟩
    refine ⟨a.length, ?_, ?_⟩
    · rw [List.mem_range]
      simp only [List.length_append, List.length_cons]
      omega
    · simp only [Bool.and_eq_true, decide_eq_true_eq, beq_iff_eq]
      refine ⟨⟨⟨List.length_pos.mpr ha, ?_⟩, ?_⟩, ?_⟩
      · rw [List.take_left]
        exact List.all_eq_true.mpr halla
      · exact getD_append_cons a _ '@' ' '
      · rw [drop_append_cons]
        rw [emailDomainTest_iff]
        exact ⟨p, q, rfl, hp, hq, hallp, hallq⟩

/-- The name regex test matches its specification reading. -/
theorem namePatternTest_iff (cs : List Char) :
    namePatternTest cs = true ↔ specNameOk cs := by
  simp only [namePatternTest, specNameOk, Bool.and_eq_true, decide_eq_true_eq,
    List.all_eq_true, Bool.or_eq_true]
  tauto

/-- The message regex test matches its amended specification reading. -/
theorem messagePatternTest_iff (cs : List Char) :
    messagePatternTest cs = true ↔ specMessageOk cs := by
  simp only [messagePatternTest, specMessageOk, Bool.and_eq_true,
    decide_eq_true_eq, List.all_eq_true]
  tauto

/-- `validateField` never touches the raw field value. -/
theorem validateField_snd_value (f : FieldState) :
    (validateField f).2.value = f.value := by
  unfold validateField
  split
  · rfl
  · split
    · rfl
    · split
      · split
        · rfl
        · rfl
      · rfl

/-- `validateForm` never touches the raw field values. -/
theorem validateForm_snd_values (fs : List FieldState) :
    (validateForm fs).2.map FieldState.value = fs.map FieldState.value := by
  induction fs with
  | nil => rfl
  | cons f fs ih =>
    simp only [validateForm, List.map_cons, validateField_snd_value, ih]

/-- One failing field member forces the aggregate verdict to false. -/
theorem validateForm_fst_false_of_mem (fs : List FieldState) (f : FieldState)
    (hmem : f ∈ fs) (hf : (validateField f).1 = false) :
    (validateForm fs).1 = false := by
  induction fs with
  | nil => cases hmem
  | cons g gs ih =>
    rcases List.mem_cons.mp hmem with rfl | h
    · simp [validateForm, hf]
    · simp [validateForm, ih h]

/-- With both DOM nodes present, a non-empty trimmed value and a rule in
the table, the verdict of `validateField` is the rule test. -/
theorem validateField_fst_of_rule (f : FieldState) (rule : ValidationRule)
    (hg : f.hasFormGroup = true) (he : f.hasErrorElement = true)
    (hne : jsTrim f.value ≠ []) (hr : validationRules f.name = some rule) :
    ((validateField f).1 = true ↔ rule.test (jsTrim f.value) = true) := by
  have hemp : (jsTrim f.value).isEmpty = false := by
    cases hx : jsTrim f.value with
    | nil => exact absurd hx hne
    | cons a l => rfl
  cases hx : rule.test (jsTrim f.value) with
  | false => simp [validateField, hg, he, hemp, hr, hx]
  | true => simp [validateField, hg, he, hemp, hr, hx]

/-- Claim C1: for every page id in the fixed set, navigating to it on a
state whose pages and nav links contain it leaves exactly one page and
exactly one nav link active, both matching the requested id; in
particular the invariant that at most one page is active, at most one
link is highlighted and the two correspond holds of the post-state. -/
theorem navigate_unique_active (st : NavState) (i : String)
    (_hfixed : i ∈ ["home", "about", "projects", "contact"])
    (hp : i ∈ st.pages.map Page.id)
    (hl : i ∈ st.navLinks.map NavLink.dataPage) :
    activePageIds (navigateToPage i st).pages = [i] ∧
      activeLinkIds (navigateToPage i st).navLinks = [i] :=
  ⟨activate_after_deactivate_pages st.pages i hp,
   activate_after_deactivate_links st.navLinks i hl⟩

/-- Witness for C1 at the sample state and the id "about". -/
theorem navigate_unique_active_witness :
    activePageIds (navigateToPage "about" sampleNav).pages = ["about"] ∧
      activeLinkIds (navigateToPage "about" sampleNav).navLinks = ["about"] :=
  navigate_unique_active sampleNav "about" (by decide) (by decide) (by decide)

/-- Claim C5: after `navigateToPage(id)` the fragment reads `id`; when the
fragment already equals `id` the history length is unchanged, and
otherwise exactly one entry is pushed. -/
theorem navigate_hash_roundtrip (st : NavState) (i : String) :
    (navigateToPage i st).hash = i ∧
      (st.hash = i → (navigateToPage i st).historyLength = st.historyLength) ∧
      (st.hash ≠ i →
        (navigateToPage i st).historyLength = st.historyLength + 1) := by
  refine ⟨?_, ?_, ?_⟩
  · show (if st.hash ≠ i then i else st.hash) = i
    by_cases h : st.hash = i
    · simp [h]
    · simp [h]
  · intro h
    show (if st.hash ≠ i then st.historyLength + 1 else st.historyLength) =
      st.historyLength
    simp [h]
  · intro h
    show (if st.hash ≠ i then st.historyLength + 1 else st.historyLength) =
      st.historyLength + 1
    simp [h]

/-- Witness for C5 at the sample state: navigating to the page already in
the fragment keeps the history length. -/
theorem navigate_hash_roundtrip_witness :
    (navigateToPage "home" sampleNav).hash = "home" ∧
      (navigateToPage "home" sampleNav).historyLength =
        sampleNav.historyLength :=
  ⟨(navigate_hash_roundtrip sampleNav "home").1,
   (navigate_hash_roundtrip sampleNav "home").2.1 (by decide)⟩

/-- Claim C6: navigating to an id outside the fixed page set (the set of
ids actually present) is total and leaves no page and no nav link
active. -/
theorem navigate_unknown_id (st : NavState) (i : String)
    (hpages : st.pages.map Page.id = ["home", "about", "projects", "contact"])
    (hlinks : st.navLinks.map NavLink.dataPage =
      ["home", "about", "projects", "contact"])
    (hi : i ∉ ["home", "about", "projects", "contact"]) :
    activePageIds (navigateToPage i st).pages = [] ∧
      activeLinkIds (navigateToPage i st).navLinks = [] :=
  ⟨activate_after_deactivate_pages_none st.pages i (by rw [hpages]; exact hi),
   activate_after_deactivate_links_none st.navLinks i (by rw [hlinks]; exact hi)⟩

/-- Witness for C6 at the sample state and the id "nonexistent". -/
theorem navigate_unknown_id_witness :
    activePageIds (navigateToPage "nonexistent" sampleNav).pages = [] ∧
      activeLinkIds (navigateToPage "nonexistent" sampleNav).navLinks = [] :=
  navigate_unknown_id sampleNav "nonexistent" (by decide) (by decide)
    (by decide)

/-- Claim C10: on `popstate` an empty fragment is treated as "home", while
a non-empty fragment matching no page deactivates everything and
activates nothing; the initial-load handler instead falls back to
activating "home" and its nav link on the same unmatched fragment. -/
theorem popstate_vs_initial_load (st1 st2 : NavState)
    (h1 : st1.hash = "")
    (h1p : "home" ∈ st1.pages.map Page.id)
    (h1l : "home" ∈ st1.navLinks.map NavLink.dataPage)
    (h2 : st2.hash ≠ "")
    (h2p : st2.hash ∉ st2.pages.map Page.id)
    (h2l : st2.hash ∉ st2.navLinks.map NavLink.dataPage)
    (h2hp : "home" ∈ st2.pages.map Page.id)
    (h2hl : "home" ∈ st2.navLinks.map NavLink.dataPage) :
    activePageIds (popstateHandler st1).pages = ["home"] ∧
      activeLinkIds (popstateHandler st1).navLinks = ["home"] ∧
      activePageIds (popstateHandler st2).pages = [] ∧
      activeLinkIds (popstateHandler st2).navLinks = [] ∧
      activePageIds (domContentLoadedNav st2).pages = ["home"] ∧
      activeLinkIds (domContentLoadedNav st2).navLinks = ["home"] := by
  have e1 : (if st1.hash = "" then "home" else st1.hash) = "home" := if_pos h1
  have e2 : (if st2.hash = "" then "home" else st2.hash) = st2.hash := if_neg h2
  refine ⟨?_, ?_, ?_, ?_, ?_, ?_⟩
  · show activePageIds (activatePageById (st1.pages.map deactivatePage)
      (if st1.hash = "" then "home" else st1.hash)) = ["home"]
    rw [e1]
    exact activate_after_deactivate_pages st1.pages "home" h1p
  · show activeLinkIds (activateLinkByData (st1.navLinks.map deactivateLink)
      (if st1.hash = "" then "home" else st1.hash)) = ["home"]
    rw [e1]
    exact activate_after_deactivate_links st1.navLinks "home" h1l
  · show activePageIds (activatePageById (st2.pages.map deactivatePage)
      (if st2.hash = "" then "home" else st2.hash)) = []
    rw [e2]
    exact activate_after_deactivate_pages_none st2.pages st2.hash h2p
  · show activeLinkIds (activateLinkByData (st2.navLinks.map deactivateLink)
      (if st2.hash = "" then "home" else st2.hash)) = []
    rw [e2]
    exact activate_after_deactivate_links_none st2.navLinks st2.hash h2l
  · show activePageIds
      (if (if st2.hash = "" then "home" else st2.hash) ∈
          (st2.pages.map deactivatePage).map Page.id then
        activatePageById (st2.pages.map deactivatePage)
          (if st2.hash = "" then "home" else st2.hash)
      else activatePageById (st2.pages.map deactivatePage) "home") = ["home"]
    rw [e2, deactivate_pages_ids, if_neg h2p]
    exact activate_after_deactivate_pages st2.pages "home" h2hp
  · show activeLinkIds
      (if (if st2.hash = "" then "home" else st2.hash) ∈
          (st2.navLinks.map deactivateLink).map NavLink.dataPage then
        activateLinkByData (st2.navLinks.map deactivateLink)
          (if st2.hash = "" then "home" else st2.hash)
      else activateLinkByData (st2.navLinks.map deactivateLink) "home") =
        ["home"]
    rw [e2, deactivate_links_ids, if_neg h2l]
    exact activate_after_deactivate_links st2.navLinks "home" h2hl

/-- Witness for C10 at the sample states with an empty and a bogus
fragment. -/
theorem popstate_vs_initial_load_witness :
    activePageIds (popstateHandler emptyHashNav).pages = ["home"] ∧
      activeLinkIds (popstateHandler emptyHashNav).navLinks = ["home"] ∧
      activePageIds (popstateHandler bogusHashNav).pages = [] ∧
      activeLinkIds (popstateHandler bogusHashNav).navLinks = [] ∧
      activePageIds (domContentLoadedNav bogusHashNav).pages = ["home"] ∧
      activeLinkIds (domContentLoadedNav bogusHashNav).navLinks = ["home"] :=
  popstate_vs_initial_load emptyHashNav bogusHashNav (by decide) (by decide)
    (by decide) (by decide) (by decide) (by decide) (by decide) (by decide)

/-- Claim C3: with the form group and error element present, an empty
trimmed value makes `validateField` return false and set the fixed
required message independently of the field kind and its rule. -/
theorem validateField_empty_required (f : FieldState)
    (hg : f.hasFormGroup = true) (he : f.hasErrorElement = true)
    (hv : jsTrim f.value = []) :
    (validateField f).1 = false ∧
      (validateField f).2.groupError = true ∧
      (validateField f).2.errorText = "This field is required" := by
  have hemp : (jsTrim f.value).isEmpty = true := by rw [hv]; rfl
  refine ⟨?_, ?_, ?_⟩ <;> simp [validateField, hg, he, hemp]

/-- Witness for C3 at a whitespace-only email field. -/
theorem validateField_empty_required_witness :
    (validateField blankField).1 = false ∧
      (validateField blankField).2.groupError = true ∧
      (validateField blankField).2.errorText = "This field is required" :=
  validateField_empty_required blankField rfl rfl (by decide)

/-- Claim C2 counterexample: the claim calls a 10-500 character message of
any characters valid and calls an email of shape local-at-domain with a
dot in the domain valid, yet an eleven-character message with an interior
newline and the email "a@b." both fail `validateField`. -/
theorem validateField_claim_counterexample :
    claimedMessageOk (jsTrim newlineMessageField.value) ∧
      (validateField newlineMessageField).1 = false ∧
      claimedEmailOk (jsTrim dotEndEmailField.value) ∧
      (validateField dotEndEmailField).1 = false := by
  refine ⟨⟨?_, ?_⟩, ?_, ⟨['a'], ['b', '.'], ?_, ?_, ?_, ?_, ?_, ?_⟩, ?_⟩ <;>
    decide

/-- Claim C2 (amended): with the form group and error element present and
a non-empty trimmed value, `validateField` returns true exactly when the
value matches the pattern of its kind: name means 2-50 characters of
letters and whitespace; email means a split local-at-p-dot-q with the
three parts non-empty and free of whitespace and at-signs; message means
10-500 characters none of which is a line terminator. -/
theorem validateField_pattern_correct (f : FieldState)
    (hg : f.hasFormGroup = true) (he : f.hasErrorElement = true)
    (hne : jsTrim f.value ≠ []) :
    (f.name = "name" →
      ((validateField f).1 = true ↔ specNameOk (jsTrim f.value))) ∧
      (f.name = "email" →
        ((validateField f).1 = true ↔ specEmailOk (jsTrim f.value))) ∧
      (f.name = "message" →
        ((validateField f).1 = true ↔ specMessageOk (jsTrim f.value))) := by
  refine ⟨fun hn => ?_, fun hn => ?_, fun hn => ?_⟩
  · rw [validateField_fst_of_rule f nameRule hg he hne (by rw [hn]; rfl)]
    exact namePatternTest_iff _
  · rw [validateField_fst_of_rule f emailRule hg he hne (by rw [hn]; rfl)]
    exact emailPatternTest_iff _
  · rw [validateField_fst_of_rule f messageRule hg he hne (by rw [hn]; rfl)]
    exact messagePatternTest_iff _

/-- Witness for the amended C2 at the sample name field. -/
theorem validateField_pattern_correct_witness :
    (validateField sampleNameField).1 = true ↔
      specNameOk (jsTrim sampleNameField.value) :=
  (validateField_pattern_correct sampleNameField rfl rfl (by decide)).1 rfl

/-- Claim C7: `validateForm` evaluates `validateField` on every field with
no short-circuiting — the returned list is the per-field map of
`validateField` regardless of the other fields — and its verdict is true
exactly when every field passes. -/
theorem validateForm_evaluates_all (fs : List FieldState) :
    ((validateForm fs).1 = true ↔ ∀ f ∈ fs, (validateField f).1 = true) ∧
      (validateForm fs).2 = fs.map fun f => (validateField f).2 := by
  induction fs with
  | nil => simp [validateForm]
  | cons f fs ih =>
    obtain ⟨ih1, ih2⟩ := ih
    constructor
    · simp only [validateForm, Bool.and_eq_true, List.mem_cons]
      constructor
      · rintro ⟨hf, hrest⟩ g hg
        rcases hg with rfl | hg
        · exact hf
        · exact ih1.mp hrest g hg
      · intro h
        exact ⟨h f (Or.inl rfl), ih1.mpr fun g hg => h g (Or.inr hg)⟩
    · simp only [validateForm, List.map_cons, ih2]

/-- Witness for C7 at the sample form. -/
theorem validateForm_evaluates_all_witness :
    ((validateForm sampleForm.fields).1 = true ↔
      ∀ f ∈ sampleForm.fields, (validateField f).1 = true) ∧
      (validateForm sampleForm.fields).2 =
        sampleForm.fields.map fun f => (validateField f).2 :=
  validateForm_evaluates_all sampleForm.fields

/-- Claim C9: with the form group or the error element missing,
`validateField` returns false without mutating the field — whatever the
value — and a form containing such a field can never validate. -/
theorem validateField_missing_dom (f : FieldState) (fs : List FieldState)
    (h : f.hasFormGroup = false ∨ f.hasErrorElement = false) :
    ((validateField f).1 = false ∧ (validateField f).2 = f) ∧
      (f ∈ fs → (validateForm fs).1 = false) := by
  have hcond : (!f.hasFormGroup || !f.hasErrorElement) = true := by
    rcases h with h | h <;> simp [h]
  have hmain : validateField f = (false, f) := by
    simp [validateField, hcond]
  exact ⟨⟨by rw [hmain], by rw [hmain]⟩,
    fun hmem => validateForm_fst_false_of_mem fs f hmem (by rw [hmain])⟩

/-- Witness for C9 at a rule-satisfying name field with no form group. -/
theorem validateField_missing_dom_witness :
    ((validateField orphanField).1 = false ∧
      (validateField orphanField).2 = orphanField) ∧
      (orphanField ∈ [orphanField] → (validateForm [orphanField]).1 = false) :=
  validateField_missing_dom orphanField [orphanField] (Or.inl rfl)

/-- `resetTimer` clears every field value, error flag and error message. -/
theorem resetTimer_fields (app : AppState) :
    ∀ f ∈ (resetTimer app).form.fields,
      f.value = [] ∧ f.groupError = false ∧ f.errorText = "" := by
  intro f hf
  obtain ⟨g, _, rfl⟩ := List.mem_map.mp hf
  exact ⟨rfl, rfl, rfl⟩

/-- `resetTimer` re-hides the banner when it exists. -/
theorem resetTimer_successHidden (app : AppState)
    (h : app.form.hasSuccess = true) :
    (resetTimer app).form.successHidden = true := by
  show (if app.form.hasSuccess then true else app.form.successHidden) = true
  simp [h]

/-- On a fully valid form `handleSubmit` takes the success branch. -/
theorem handleSubmit_valid (app : AppState)
    (hv : (validateForm app.form.fields).1 = true) :
    handleSubmit app =
      ({ app with form :=
          { app.form with
            fields := (validateForm app.form.fields).2
            formDisplay := "none"
            successHidden :=
              if app.form.hasSuccess then false
              else app.form.successHidden } },
       some 3000) := by
  unfold handleSubmit
  rw [if_pos hv]

/-- Claim C4: submitting with all fields valid hides the form, reveals the
success banner and schedules the fixed 3000 ms reset; running the reset
clears every field value, error flag and error message, restores the form
display and hides the banner again. -/
theorem submit_valid_lifecycle (app : AppState)
    (hv : (validateForm app.form.fields).1 = true)
    (hs : app.form.hasSuccess = true) :
    (handleSubmit app).1.form.formDisplay = "none" ∧
      (handleSubmit app).1.form.successHidden = false ∧
      (handleSubmit app).2 = some 3000 ∧
      (∀ f ∈ (resetTimer (handleSubmit app).1).form.fields,
        f.value = [] ∧ f.groupError = false ∧ f.errorText = "") ∧
      (resetTimer (handleSubmit app).1).form.formDisplay = "flex" ∧
      (resetTimer (handleSubmit app).1).form.successHidden = true := by
  rw [handleSubmit_valid app hv]
  exact ⟨rfl, by simp [hs], rfl, resetTimer_fields _, rfl,
    resetTimer_successHidden _ hs⟩

/-- Witness for C4 at the valid sample application. -/
theorem submit_valid_lifecycle_witness :
    (handleSubmit sampleApp).1.form.formDisplay = "none" ∧
      (handleSubmit sampleApp).1.form.successHidden = false ∧
      (handleSubmit sampleApp).2 = some 3000 ∧
      (∀ f ∈ (resetTimer (handleSubmit sampleApp).1).form.fields,
        f.value = [] ∧ f.groupError = false ∧ f.errorText = "") ∧
      (resetTimer (handleSubmit sampleApp).1).form.formDisplay = "flex" ∧
      (resetTimer (handleSubmit sampleApp).1).form.successHidden = true :=
  submit_valid_lifecycle sampleApp (by decide) rfl

/-- Claim C8: submitting with an invalid field leaves the navigation
state, the form display, the banner visibility and every field value
unchanged, schedules nothing, and moves focus to the first field whose
group carries the error class. -/
theorem submit_invalid_frame (app : AppState)
    (hv : (validateForm app.form.fields).1 = false) :
    (handleSubmit app).1.nav = app.nav ∧
      (handleSubmit app).1.form.formDisplay = app.form.formDisplay ∧
      (handleSubmit app).1.form.successHidden = app.form.successHidden ∧
      (handleSubmit app).1.form.fields.map FieldState.value =
        app.form.fields.map FieldState.value ∧
      (handleSubmit app).2 = none ∧
      ∀ g, firstErrorField (validateForm app.form.fields).2 = some g →
        (handleSubmit app).1.focusedField = some g.name := by
  have hns : handleSubmit app =
      ({ app with
          form := { app.form with fields := (validateForm app.form.fields).2 }
          focusedField :=
            match firstErrorField (validateForm app.form.fields).2 with
            | some f => some f.name
            | none => app.focusedField }, none) := by
    unfold handleSubmit
    rw [if_neg]
    rw [hv]
    exact Bool.false_ne_true
  rw [hns]
  refine ⟨rfl, rfl, rfl, validateForm_snd_values _, rfl, ?_⟩
  intro g hg
  show (match firstErrorField (validateForm app.form.fields).2 with
        | some f => some f.name
        | none => app.focusedField) = some g.name
  rw [hg]

/-- Witness for C8 at the invalid sample application. -/
theorem submit_invalid_frame_witness :
    (handleSubmit invalidApp).1.nav = invalidApp.nav ∧
      (handleSubmit invalidApp).1.form.formDisplay =
        invalidApp.form.formDisplay ∧
      (handleSubmit invalidApp).1.form.successHidden =
        invalidApp.form.successHidden ∧
      (handleSubmit invalidApp).1.form.fields.map FieldState.value =
        invalidApp.form.fields.map FieldState.value ∧
      (handleSubmit invalidApp).2 = none ∧
      ∀ g, firstErrorField (validateForm invalidApp.form.fields).2 = some g →
        (handleSubmit invalidApp).1.focusedField = some g.name :=
  submit_invalid_frame invalidApp (by decide)

end Portfolio
